import Mathlib

/-!
Verification of the response-processing and tool-dispatch cycle of
`manta/core/reply_handler.py`.

The embedding translates the `ReplyHandler` methods into pure Lean functions.
Stateful mutation of the conversation history becomes explicit state passing:
each method takes the current conversation (a list of role-tagged messages)
and returns the updated one.  Python truthiness tests on optional strings
(`if tool:`, `if result.message:`) are modelled by `pyTruthy`, which is false
exactly on `none` and on the empty string.  The collaborators whose code is
not part of the repository snapshot (`ConversationHistory`, `ToolManager`)
are modelled from the specification, as marked in their doc comments.
-/

/-- A role-tagged message, as stored in the conversation history. -/
structure Message where
  role : String
  content : String
deriving DecidableEq, Repr

/-- Modelled from the spec: `ConversationHistory.add_message`
(`manta/session/history.py` is not in the snapshot).  Per the spec the
conversation is an append-only ordered log of role-tagged messages:
"appended, never mutated or removed". -/
def ConversationHistory.add_message (conv : List Message) (role content : String) : List Message :=
  conv ++ [⟨role, content⟩]

/-- Modelled from the spec: `ConversationHistory.get_context`
(`manta/session/history.py` is not in the snapshot).  The spec says the
conversation "produces the context handed to the model on each turn" and
that the context equals the appended sequence in insertion order. -/
def ConversationHistory.get_context (conv : List Message) : List Message :=
  conv

/-- `ResponseType` from `reply_handler.py`. -/
inductive ResponseType where
  | TOOL_CALL
  | FINAL_RESPONSE
deriving DecidableEq, Repr

/-- Parameter mapping of a tool call: string keys to string values. -/
abbrev ToolParams := List (String × String)

/-- `ProcessedResponse` from `reply_handler.py` (dataclass with optional
`tool_name` and `tool_params` defaulting to `None`). -/
structure ProcessedResponse where
  type : ResponseType
  content : String
  tool_name : Option String := none
  tool_params : Option ToolParams := none
deriving DecidableEq, Repr

/-- `ToolResult` as described by the spec data model:
`{message: optional text, data: optional text}`. -/
structure ToolResult where
  message : Option String := none
  data : Option String := none
deriving DecidableEq, Repr

/-- Python truthiness of an optional string: `None` and `""` are falsy,
every other string is truthy. -/
def pyTruthy : Option String → Bool
  | none => false
  | some s => s ≠ ""

/-- Python `str(...)` applied to an optional string: `str(None)` is the
literal `"None"`, `str` of a string is the string itself. -/
def pyStr : Option String → String
  | none => "None"
  | some s => s

/-- `ReplyHandler.process_response` from `reply_handler.py`.  The raw
response is appended as an `assistant` message, then the parser is run;
`if tool:` is a truthiness test on the returned tool name.  The parser
(`ToolManager.parse_tool_use`, not in the snapshot) is passed in as a
function returning the pair `(tool, params)`. -/
def process_response (conv : List Message)
    (parse_tool_use : String → Option String × Option ToolParams)
    (response : String) : List Message × ProcessedResponse :=
  let conv := ConversationHistory.add_message conv "assistant" response
  let (tool, params) := parse_tool_use response
  if pyTruthy tool then
    (conv, { type := ResponseType.TOOL_CALL, content := response,
             tool_name := tool, tool_params := params })
  else
    (conv, { type := ResponseType.FINAL_RESPONSE, content := response })

/-- `ReplyHandler.execute_tool` from `reply_handler.py`.  The tool manager
(whose `execute_tool` is not in the snapshot) is passed in as a function
from tool name and parameters to a `ToolResult`.  `if result.message:` and
`if result.data:` are truthiness tests; the appended text is `str(...)` of
the field. -/
def execute_tool (conv : List Message)
    (mgr_execute : String → ToolParams → ToolResult)
    (tool : String) (params : ToolParams) : List Message × Option String :=
  let result := mgr_execute tool params
  let conv :=
    if pyTruthy result.message then
      ConversationHistory.add_message conv "user" (pyStr result.message)
    else conv
  let conv :=
    if pyTruthy result.data then
      ConversationHistory.add_message conv "user" (pyStr result.data)
    else conv
  (conv, result.message)

/-- `ReplyHandler.handle_tool_denial` from `reply_handler.py`.  The
parameter is `tool: str | None`; the denial message is the f-string
`"Tool execution denied: {tool}"`. -/
def handle_tool_denial (conv : List Message) (tool : Option String) : List Message :=
  let denial_message := "Tool execution denied: " ++ pyStr tool
  ConversationHistory.add_message conv "user" denial_message

/-- Python `str.strip()`: remove leading and trailing whitespace. -/
def pyStrip (s : String) : String :=
  ⟨((s.data.dropWhile Char.isWhitespace).reverse.dropWhile Char.isWhitespace).reverse⟩

/-- Python `str.lower()`: lowercase each character (ASCII range, which is
all the gate's comparison against `"yes"`/`"no"` depends on). -/
def pyLower (s : String) : String :=
  ⟨s.data.map Char.toLower⟩

/-- Normalisation applied to each user input in `_ask_permission`:
Python `.strip().lower()`. -/
def normalizeInput (s : String) : String :=
  pyLower (pyStrip s)

/-- `ReplyHandler._ask_permission` from `reply_handler.py`, with the
interactive input stream made explicit as a list of input strings consumed
in order.  The Python loop repeats until an input normalises to `"yes"` or
`"no"`; on a finite stream that never does, the model returns `none`
(the real code would keep prompting). -/
def ask_permission : List String → Option Bool
  | [] => none
  | r :: rest =>
    let response := normalizeInput r
    if response = "yes" ∨ response = "no" then
      some (response == "yes")
    else
      ask_permission rest

/-- Number of times `_ask_permission` issues its prompt (calls `input`)
when consuming the given input stream. -/
def ask_permission_prompts : List String → Nat
  | [] => 0
  | r :: rest =>
    let response := normalizeInput r
    if response = "yes" ∨ response = "no" then 1
    else 1 + ask_permission_prompts rest

/-- Spec-modelled failure message for an unregistered tool name
(`UnknownToolError` surfaced as a `ToolResult`-shaped message). -/
def unknownToolMessage (tool : String) : String :=
  "Unknown tool: " ++ tool

/-- Spec-modelled failure message for a handler-raised `ToolError`. -/
def toolFailureMessage (msg : String) : String :=
  "Tool execution failed: " ++ msg

/-- Modelled from the spec: `ToolManager.execute_tool`
(`manta/tools/manager.py` is not in the snapshot).  Per the spec, tool
resolution failure (`UnknownToolError`) or a handler-raised `ToolError`
"is recovered locally and never crashes the cycle", surfacing "as a
ToolResult-shaped error message"; otherwise the handler's `ToolResult` is
returned.  The registry is a name-to-handler association list and a
handler may fail with an error message (`Except.error`). -/
def ToolManager.execute_tool
    (registry : List (String × (ToolParams → Except String ToolResult)))
    (tool : String) (params : ToolParams) : ToolResult :=
  match registry.lookup tool with
  | none => { message := some (unknownToolMessage tool), data := none }
  | some handler =>
    match handler params with
    | Except.error msg => { message := some (toolFailureMessage msg), data := none }
    | Except.ok result => result

/-- A string starting with a nonempty literal is nonempty (used for the
spec-modelled error messages, which carry a fixed nonempty prefix). -/
theorem string_append_ne_empty (p t : String) (hp : p.data ≠ []) : p ++ t ≠ "" := by
  cases p with
  | mk pd =>
    cases t with
    | mk td =>
      intro h
      apply hp
      have hd : pd ++ td = [] := congrArg String.data h
      exact (List.append_eq_nil.mp hd).1

/-- C1: `process_response` appends the raw response verbatim as an
`assistant`-role message, and the appended message is the same for every
possible parser outcome (tool call or final answer). -/
theorem process_response_appends_assistant_raw
    (conv : List Message)
    (parse_tool_use : String → Option String × Option ToolParams)
    (response : String) :
    (process_response conv parse_tool_use response).1
      = conv ++ [⟨"assistant", response⟩] := by
  unfold process_response
  rcases parse_tool_use response with ⟨tool, params⟩
  by_cases h : pyTruthy tool = true <;>
    simp [h, ConversationHistory.add_message]

/-- C2: when the parser returns a tool-call (a registered, hence nonempty,
tool name together with a parameter mapping), `process_response` returns a
`TOOL_CALL` carrying exactly that name and mapping; when the parser finds
no tool-call block (it returns no tool name), `process_response` returns a
`FINAL_RESPONSE` whose content is the input string verbatim. -/
theorem process_response_classifies
    (conv : List Message) (response name : String) (params : Option ToolParams)
    (conv2 : List Message) (response2 : String) (params2 : Option ToolParams)
    (h : name ≠ "") :
    (process_response conv (fun _ => (some name, params)) response).2
      = { type := ResponseType.TOOL_CALL, content := response,
          tool_name := some name, tool_params := params }
    ∧ (process_response conv2 (fun _ => (none, params2)) response2).2
      = { type := ResponseType.FINAL_RESPONSE, content := response2,
          tool_name := none, tool_params := none } := by
  constructor
  · unfold process_response
    simp [pyTruthy, h]
  · unfold process_response
    simp [pyTruthy]

/-- Witness for C2 at concrete inputs. -/
theorem process_response_classifies_witness :
    (process_response [] (fun _ => (some "read_file", some [("path", "x")])) "use read_file").2
      = { type := ResponseType.TOOL_CALL, content := "use read_file",
          tool_name := some "read_file", tool_params := some [("path", "x")] }
    ∧ (process_response [] (fun _ => ((none : Option String), (none : Option ToolParams))) "done").2
      = { type := ResponseType.FINAL_RESPONSE, content := "done",
          tool_name := none, tool_params := none } :=
  process_response_classifies [] "use read_file" "read_file" (some [("path", "x")])
    [] "done" none (by decide)

/-- C3: on an input stream whose first normalised `"yes"`/`"no"` token is
`v`, the permission gate prompts once per preceding invalid input (none of
which makes it return), prompts once more for `v`, and returns `true`
exactly when `v` normalises to `"yes"`. -/
theorem ask_permission_first_valid
    (pre : List String) (v : String) (rest : List String)
    (hpre : ∀ x ∈ pre, ¬(normalizeInput x = "yes" ∨ normalizeInput x = "no"))
    (hv : normalizeInput v = "yes" ∨ normalizeInput v = "no") :
    ask_permission (pre ++ v :: rest) = some (normalizeInput v == "yes")
    ∧ ask_permission_prompts (pre ++ v :: rest) = pre.length + 1 := by
  induction pre with
  | nil =>
    simp only [List.nil_append, List.length_nil]
    constructor
    · simp [ask_permission, hv]
    · simp [ask_permission_prompts, hv]
  | cons x xs ih =>
    have hx := hpre x (List.mem_cons_self x xs)
    have ih2 := ih fun y hy => hpre y (List.mem_cons_of_mem x hy)
    constructor
    · simpa [ask_permission, hx] using ih2.1
    · simp [ask_permission_prompts, hx, ih2.2]
      omega

/-- Witness for C3 at a concrete input stream: two invalid inputs repeat
the prompt, then a whitespace-padded upper-case YES is accepted. -/
theorem ask_permission_first_valid_witness :
    ask_permission ["maybe", "", "  YES ", "no"] = some true
    ∧ ask_permission_prompts ["maybe", "", "  YES ", "no"] = 3 :=
  ask_permission_first_valid ["maybe", ""] "  YES " ["no"] (by decide) (by decide)

/-- Counterexample to C4 as stated: a `ToolResult` that has both a
`message` (the empty string, which is present but falsy in Python) and a
`data` field leads `execute_tool` to append only ONE user message (the
data), not two. -/
theorem execute_tool_both_fields_cex :
    (({ message := some "", data := some "output" } : ToolResult).message.isSome = true)
    ∧ (({ message := some "", data := some "output" } : ToolResult).data.isSome = true)
    ∧ (execute_tool [] (fun _ _ => { message := some "", data := some "output" })
        "tool" []).1 = [⟨"user", "output"⟩]
    ∧ (execute_tool [] (fun _ _ => { message := some "", data := some "output" })
        "tool" []).1.length ≠ 2 := by
  refine ⟨rfl, rfl, by decide, by decide⟩

/-- C4 amended: a field of the `ToolResult` is appended exactly when it is
truthy in Python's sense (present and non-empty).  If both `message` and
`data` are truthy, exactly two `user`-role messages are appended, message
first and data second; if exactly one is truthy, exactly that one; if
neither is truthy, none. -/
theorem execute_tool_append_cases
    (conv : List Message) (mgr_execute : String → ToolParams → ToolResult)
    (tool : String) (params : ToolParams) :
    (pyTruthy (mgr_execute tool params).message = true →
      pyTruthy (mgr_execute tool params).data = true →
      (execute_tool conv mgr_execute tool params).1
        = conv ++ [⟨"user", pyStr (mgr_execute tool params).message⟩,
                   ⟨"user", pyStr (mgr_execute tool params).data⟩])
    ∧ (pyTruthy (mgr_execute tool params).message = true →
      pyTruthy (mgr_execute tool params).data = false →
      (execute_tool conv mgr_execute tool params).1
        = conv ++ [⟨"user", pyStr (mgr_execute tool params).message⟩])
    ∧ (pyTruthy (mgr_execute tool params).message = false →
      pyTruthy (mgr_execute tool params).data = true →
      (execute_tool conv mgr_execute tool params).1
        = conv ++ [⟨"user", pyStr (mgr_execute tool params).data⟩])
    ∧ (pyTruthy (mgr_execute tool params).message = false →
      pyTruthy (mgr_execute tool params).data = false →
      (execute_tool conv mgr_execute tool params).1 = conv) := by
  refine ⟨?_, ?_, ?_, ?_⟩ <;> intro hm hd <;>
    simp [execute_tool, ConversationHistory.add_message, hm, hd]

/-- Witness for C4's amended theorem: a truthy message and truthy data
append exactly two user messages, message first. -/
theorem execute_tool_append_cases_witness :
    (execute_tool [] (fun _ _ => { message := some "ok", data := some "42" })
      "tool" []).1 = [⟨"user", "ok"⟩, ⟨"user", "42"⟩] :=
  (execute_tool_append_cases [] (fun _ _ => { message := some "ok", data := some "42" })
    "tool" []).1 rfl rfl

/-- C5: handling a denial appends exactly one `user`-role message, whose
text is exactly `"Tool execution denied: <name>"`; the resulting
conversation is fully determined by this equation, so no other message is
touched and no tool handler is consulted (the function takes none). -/
theorem handle_tool_denial_appends_denial
    (conv : List Message) (name : String) :
    handle_tool_denial conv (some name)
      = conv ++ [⟨"user", "Tool execution denied: " ++ name⟩] :=
  rfl

/-- C6: dispatching through the spec-modelled tool manager, a resolution
failure (unregistered name) or a handler failure is recovered inside
`execute_tool` and surfaced as a single error message appended to the
conversation; `execute_tool` is a total function, so the cycle never
crashes. -/
theorem execute_tool_recovers_failures
    (conv : List Message)
    (registry : List (String × (ToolParams → Except String ToolResult)))
    (tool : String) (params : ToolParams) :
    (registry.lookup tool = none →
      (execute_tool conv (ToolManager.execute_tool registry) tool params).1
        = conv ++ [⟨"user", unknownToolMessage tool⟩])
    ∧ (∀ handler msg, registry.lookup tool = some handler →
        handler params = Except.error msg →
        (execute_tool conv (ToolManager.execute_tool registry) tool params).1
          = conv ++ [⟨"user", toolFailureMessage msg⟩]) := by
  constructor
  · intro h
    have hne : unknownToolMessage tool ≠ "" :=
      string_append_ne_empty "Unknown tool: " tool (by decide)
    simp [execute_tool, ToolManager.execute_tool, h, pyTruthy, pyStr, hne,
      ConversationHistory.add_message]
  · intro handler msg hl he
    have hne : toolFailureMessage msg ≠ "" :=
      string_append_ne_empty "Tool execution failed: " msg (by decide)
    simp [execute_tool, ToolManager.execute_tool, hl, he, pyTruthy, pyStr, hne,
      ConversationHistory.add_message]

/-- Witness for C6: an empty registry surfaces the unknown-tool message,
and a registered handler that fails surfaces the failure message. -/
theorem execute_tool_recovers_failures_witness :
    (execute_tool [] (ToolManager.execute_tool []) "run" []).1
      = [⟨"user", unknownToolMessage "run"⟩]
    ∧ (execute_tool []
        (ToolManager.execute_tool [("run", fun _ => Except.error "boom")]) "run" []).1
      = [⟨"user", toolFailureMessage "boom"⟩] :=
  ⟨(execute_tool_recovers_failures [] [] "run" []).1 rfl,
   (execute_tool_recovers_failures [] [("run", fun _ => Except.error "boom")] "run" []).2
     (fun _ => Except.error "boom") "boom" rfl rfl⟩

/-- C7: every `ReplyHandler` operation only extends the conversation — the
updated conversation is always the old one followed by some suffix of newly
appended messages (never a removal, reordering, or mutation) — and the
context produced for the model is exactly the stored sequence in insertion
order. -/
theorem reply_handler_append_only
    (conv : List Message)
    (parse_tool_use : String → Option String × Option ToolParams)
    (response : String)
    (mgr_execute : String → ToolParams → ToolResult)
    (tool : String) (params : ToolParams)
    (denied_tool : Option String) :
    (∃ t1, (process_response conv parse_tool_use response).1 = conv ++ t1)
    ∧ (∃ t2, (execute_tool conv mgr_execute tool params).1 = conv ++ t2)
    ∧ (∃ t3, handle_tool_denial conv denied_tool = conv ++ t3)
    ∧ ConversationHistory.get_context conv = conv := by
  refine ⟨?_, ?_, ⟨[⟨"user", "Tool execution denied: " ++ pyStr denied_tool⟩], rfl⟩, rfl⟩
  · refine ⟨[⟨"assistant", response⟩], ?_⟩
    unfold process_response
    rcases parse_tool_use response with ⟨t, ps⟩
    by_cases h : pyTruthy t = true <;> simp [h, ConversationHistory.add_message]
  · unfold execute_tool
    by_cases hm : pyTruthy (mgr_execute tool params).message = true <;>
      by_cases hd : pyTruthy (mgr_execute tool params).data = true <;>
      simp [hm, hd, ConversationHistory.add_message]

/-- C8: when the parser returns an empty-string tool name, the Python
truthiness test `if tool:` fails, so `process_response` classifies the
response as `FINAL_RESPONSE` with `tool_name` and `tool_params` equal to
`None` — an empty-named tool call never reaches gating or dispatch. -/
theorem process_response_empty_tool_name_final
    (conv : List Message) (response : String) (params : Option ToolParams) :
    (process_response conv (fun _ => (some "", params)) response).2
      = { type := ResponseType.FINAL_RESPONSE, content := response,
          tool_name := none, tool_params := none } :=
  rfl

/-- C9: `execute_tool` returns exactly the `ToolResult`'s `message` field
(possibly `None`), never the `data` field, and does so whether or not the
message was truthy enough to be appended to the conversation. -/
theorem execute_tool_returns_message
    (conv : List Message) (mgr_execute : String → ToolParams → ToolResult)
    (tool : String) (params : ToolParams) :
    (execute_tool conv mgr_execute tool params).2
      = (mgr_execute tool params).message :=
  rfl

/-- C10: `handle_tool_denial` accepts `None` as the tool name; the Python
f-string renders it as the literal text `"None"`, so exactly one
`user`-role message `"Tool execution denied: None"` is appended. -/
theorem handle_tool_denial_none (conv : List Message) :
    handle_tool_denial conv none
      = conv ++ [⟨"user", "Tool execution denied: None"⟩] :=
  rfl
